import Mathlib

/-!
Shallow embedding of the failure-artifact correlation and report-synthesis
pipeline of this repository (src/conftest.py and src/report_generator.py),
together with theorems settling the claims of the specification.

Conventions:
* Python dicts holding string keys are embedded as association lists or as
  structures with `Option` fields (a `none` field plays the role of an absent
  or `null` JSON key).
* Code that can raise an exception is embedded as a function into
  `Except String _`; an `Except.error` value models an uncaught exception.
* The filesystem is embedded as a partial map from path strings to abstract
  file contents; writing a file is functional update.
-/

namespace TestCI

/-! ## Test identities and pytest item names

A pytest nodeid has the shape `path/to/file.py::name`.  `item.name` is the
part after the last `::` separator.  `conftest.py` line 154 derives the
screenshot filename stem from `item.name`, not from the full nodeid.
-/

/-- If the character list contains the two-character separator `::`, return
the suffix after its last occurrence, else `none`. -/
def afterSepOpt : List Char → Option (List Char)
  | [] => none
  | ':' :: ':' :: rest => some ((afterSepOpt rest).getD rest)
  | _ :: rest => afterSepOpt rest

/-- pytest `item.name` for a nodeid: the component after the last `::`
(the whole string when no `::` occurs). -/
def itemName (nodeid : String) : String :=
  match afterSepOpt nodeid.toList with
  | some r => String.mk r
  | none => nodeid

/-- conftest.py lines 150–155: the screenshot path built for a test, relative
to the working directory.  The stem is exactly `item.name` (the variable
`sanitized` is assigned `item.name` and no character replacement happens). -/
def resolvePath (name : String) : String :=
  "screenshots/" ++ name ++ ".png"

/-- The screenshot path the code derives from a full test identity (nodeid):
`resolvePath` applied to the nodeid's `item.name` component. -/
def derivedPath (nodeid : String) : String :=
  resolvePath (itemName nodeid)

/-! ## The correlation index (`FAILED_SCREENSHOTS`)

conftest.py line 26: a run-scoped Python dict mapping nodeid to the relative
screenshot path.  We embed it as an association list; assignment
`d[k] = v` overwrites the binding when the key is present and appends it
otherwise. -/

/-- The correlation index `FAILED_SCREENSHOTS`: nodeid ↦ relative path. -/
abbrev Index := List (String × String)

/-- Python dict assignment `idx[k] = v`. -/
def Index.record (idx : Index) (k v : String) : Index :=
  if idx.any (fun p => p.1 == k) then
    idx.map (fun p => if p.1 == k then (k, v) else p)
  else idx ++ [(k, v)]

/-- Number of bindings for key `k` (a Python dict always has at most one). -/
def countKey (idx : Index) (k : String) : Nat :=
  (idx.filter (fun p => p.1 == k)).length

/-! ## The execution observer (`pytest_runtest_makereport`) -/

/-- The phase (`rep.when`) of a pytest test report. -/
inductive Phase
  | setup
  | call
  | teardown
deriving DecidableEq

/-- One phase report handed to `pytest_runtest_makereport`. -/
structure PhaseReport where
  when : Phase
  failed : Bool
  nodeid : String
deriving DecidableEq

/-- A fixture value from `item.funcargs`.  A `webDriver` value is one for
which `isinstance(fixture_val, WebDriver)` holds; `captureOk` tells whether
`save_screenshot` succeeds on it or raises. -/
inductive FixtureVal
  | webDriver (captureOk : Bool)
  | other
deriving DecidableEq

/-- conftest.py lines 139–143: scan `item.funcargs` for the first fixture
value that is a `WebDriver` instance; return its capture flag. -/
def findWebDriver : List FixtureVal → Option Bool
  | [] => none
  | .webDriver ok :: _ => some ok
  | .other :: rest => findWebDriver rest

/-- A pytest test item: full nodeid, `item.name`, and its fixture values. -/
structure TestItem where
  nodeid : String
  name : String
  funcargs : List FixtureVal
deriving DecidableEq

/-- Effects of one invocation of the post-yield body of
`pytest_runtest_makereport`: whether a capture was attempted (the
`save_screenshot` call reached), the file written on success, the updated
correlation index, and whether the "Could not save screenshot" warning was
printed (the exception was caught, not propagated). -/
structure ObserverResult where
  captureAttempted : Bool
  writtenFile : Option String
  index : Index
  warned : Bool
deriving DecidableEq

/-- conftest.py lines 127–166: the post-yield body of
`pytest_runtest_makereport`.  Triggers only when `rep.when == "call"` and
`rep.failed`; requires a `WebDriver` fixture; on capture success records
`rep.nodeid ↦ relpath` in the index; on capture failure catches the
exception, prints a warning and leaves the index unchanged. -/
def pytest_runtest_makereport (idx : Index) (item : TestItem) (rep : PhaseReport) :
    ObserverResult :=
  if rep.when = Phase.call ∧ rep.failed then
    match findWebDriver item.funcargs with
    | none => ⟨false, none, idx, false⟩
    | some ok =>
      let png := resolvePath item.name
      if ok then ⟨true, some png, idx.record rep.nodeid png, false⟩
      else ⟨true, none, idx, true⟩
  else ⟨false, none, idx, false⟩

/-- Run the observer over the sequence of phase reports pytest emits for one
test, threading the index; also count capture attempts. -/
def processTest (idx : Index) (item : TestItem) : List PhaseReport → Index × Nat
  | [] => (idx, 0)
  | r :: rs =>
    let res := pytest_runtest_makereport idx item r
    let rest := processTest res.index item rs
    (rest.1, (if res.captureAttempted then 1 else 0) + rest.2)

/-! ## The result serializer (`pytest_json_modifyreport`)

A test record of the persisted JSON document (`report.json`).  Fields that
may be absent (or `null`) in the JSON object are `Option`s; `extra` stands
for the remaining keys of the dict, which the serializer never touches. -/

/-- One entry of the `tests` array of `report.json`. -/
structure TestDict where
  nodeid : Option String
  outcome : Option String
  /-- The message found under `call.crash.message`, when that chain of keys
  is present. -/
  call_crash_message : Option String
  user_properties : Option (List (String × String))
  /-- Stand-in for every other key of the test dict. -/
  extra : List (String × String)
deriving DecidableEq

/-- conftest.py lines 180–187, for one test dict: when the record's nodeid is
a key of `FAILED_SCREENSHOTS`, initialize `user_properties` to `[]` if it is
absent or `null`, then append the `["screenshot", rel_path]` pair; otherwise
leave the dict untouched. -/
def modifyTest (idx : Index) (t : TestDict) : TestDict :=
  match t.nodeid with
  | none => t
  | some n =>
    match List.lookup n idx with
    | none => t
    | some rel =>
      { t with user_properties := some (t.user_properties.getD [] ++ [("screenshot", rel)]) }

/-- conftest.py lines 174–187: `pytest_json_modifyreport` applied to the
`tests` array of the JSON report. -/
def pytest_json_modifyreport (idx : Index) (tests : List TestDict) : List TestDict :=
  tests.map (modifyTest idx)

/-! ## The run-result document -/

/-- The `summary` object of `report.json`; every counter may be absent. -/
structure Summary where
  total : Option Nat
  collected : Option Nat
  passed : Option Nat
  failed : Option Nat
deriving DecidableEq

/-- The parsed `report.json` document.  An absent `summary` key behaves as a
summary with no counters, and an absent `tests` key as an empty list, which
is exactly what `data.get("summary", {})` / `data.get("tests", [])` give. -/
structure RunDoc where
  summary : Summary
  tests : List TestDict
deriving DecidableEq

/-- report_generator.py line 29: `summary.get("total", summary.get("collected", 0))`. -/
def totalOf (d : RunDoc) : Nat := d.summary.total.getD (d.summary.collected.getD 0)

/-- report_generator.py line 30. -/
def passedOf (d : RunDoc) : Nat := d.summary.passed.getD 0

/-- report_generator.py line 31. -/
def failedOf (d : RunDoc) : Nat := d.summary.failed.getD 0

/-- report_generator.py lines 48–50: the failure message of a record, with
the `<no message>` placeholder substituted when the chain
`call.crash.message` is absent. -/
def msgOf (t : TestDict) : String := t.call_crash_message.getD "<no message>"

/-! ## The text (markdown) report -/

/-- report_generator.py lines 35–42: the fixed header lines of the markdown
report. -/
def mdHeader (d : RunDoc) : List String :=
  ["# Test Report Summary",
   "- **Total tests:** " ++ toString (totalOf d),
   "- **Passed:** " ++ toString (passedOf d),
   "- **Failed:** " ++ toString (failedOf d),
   "",
   "## Failed Tests Details"]

/-- report_generator.py lines 44–51, for one record: a failed record
contributes the line `` - `<nodeid>`: <message> ``.  The subscription
`t["nodeid"]` raises a `KeyError` when the record has no `nodeid` key; the
error aborts the whole generation (it is not caught anywhere in `main`). -/
def mdLinesFor (t : TestDict) : Except String (List String) :=
  if t.outcome = some "failed" then
    match t.nodeid with
    | none => .error "KeyError: nodeid"
    | some n => .ok ["- `" ++ n ++ "`: " ++ msgOf t]
  else .ok []

/-- Error-propagating concatenation: the Python `for` loop that appends
lines per record and lets the first exception escape. -/
def collectE {α β : Type} (f : α → Except String (List β)) : List α → Except String (List β)
  | [] => .ok []
  | a :: as =>
    match f a with
    | .error e => .error e
    | .ok bs =>
      match collectE f as with
      | .error e => .error e
      | .ok rest => .ok (bs ++ rest)

/-- The body lines of the markdown report (one bullet per failed record). -/
def mdBody (d : RunDoc) : Except String (List String) :=
  collectE mdLinesFor d.tests

/-- report_generator.py lines 33–53: the full markdown text, or the
uncaught exception that aborted its construction. -/
def genMd (d : RunDoc) : Except String String :=
  (mdBody d).map (fun body => String.intercalate "\n" (mdHeader d ++ body))

/-- The markdown text of a document, defaulting to `""` when generation
raises (used only to state concrete facts about specific documents). -/
def mdTextOf (d : RunDoc) : String := ((genMd d).toOption).getD ""

/-! ## The filesystem and the illustrated (PDF) report -/

/-- An element of the reportlab `story` list. -/
inductive Flowable
  | logo
  | para (s : String)
  | spacer (h : Nat)
  | image (path : String)
deriving DecidableEq

/-- Abstract content of a file on disk. -/
inductive FileContent
  /-- A file whose text parses as a run-result document. -/
  | jsonDoc (d : RunDoc)
  /-- An image file; `ok` tells whether reportlab's `Image` accepts it. -/
  | imageFile (ok : Bool)
  | textFile (s : String)
  /-- A rendered PDF, identified with its story. -/
  | story (fls : List Flowable)
  /-- A file that parses neither as JSON nor as an image. -/
  | invalid
deriving DecidableEq

/-- The filesystem: a partial map from path to content.  Paths are relative
to the working directory. -/
def FS : Type := String → Option FileContent

/-- Writing a file. -/
def FS.set (fs : FS) (p : String) (c : FileContent) : FS :=
  fun q => if q = p then some c else fs q

/-- `json.loads` on a file's content: succeeds exactly on `jsonDoc`. -/
def parseDoc : FileContent → Option RunDoc
  | .jsonDoc d => some d
  | _ => none

/-- Whether reportlab's `Image(path)` succeeds on this content (it raises on
anything that is not a well-formed image). -/
def embeds : FileContent → Bool
  | .imageFile ok => ok
  | _ => false

/-- report_generator.py line 114: `nodeid.replace("/", " / ")`. -/
def spaceSlashes (s : String) : String :=
  String.join (s.toList.map fun c => if c = '/' then " / " else String.singleton c)

/-- report_generator.py lines 124–129: the first `user_properties` pair named
`"screenshot"`, if any.  An absent (or `null`) `user_properties` behaves as
the empty list. -/
def screenshotOf (t : TestDict) : Option String :=
  ((t.user_properties.getD []).find? (fun p => p.1 == "screenshot")).map (·.2)

/-- report_generator.py lines 106–150, for one failed record with nodeid
`n`: the bold identity line, the failure message, then either the embedded
image, an inline embedding-error note, the "[No screenshot file found]"
placeholder (path present but no such file), or the "[No screenshot
captured]" placeholder (no screenshot property; also for a falsy empty
path, per `if screenshot_path:`). -/
def pdfSegment (fs : FS) (t : TestDict) (n : String) : List Flowable :=
  let head : List Flowable :=
    [.para ("<b>" ++ spaceSlashes n ++ "</b>:"), .spacer 4, .para (msgOf t), .spacer 8]
  match screenshotOf t with
  | none => head ++ [.para "[No screenshot captured]", .spacer 12]
  | some p =>
    if p.isEmpty then head ++ [.para "[No screenshot captured]", .spacer 12]
    else
      match fs p with
      | none => head ++ [.para "[No screenshot file found]", .spacer 12]
      | some c =>
        if embeds c then head ++ [.image p, .spacer 12]
        else head ++ [.para "[Unable to insert screenshot: embed error]", .spacer 12]

/-- The per-record story contribution; `t["nodeid"]` at line 108 raises a
`KeyError` on a failed record without a nodeid. -/
def storyFor (fs : FS) (t : TestDict) : Except String (List Flowable) :=
  if t.outcome = some "failed" then
    match t.nodeid with
    | none => .error "KeyError: nodeid"
    | some n => .ok (pdfSegment fs t n)
  else .ok []

/-- report_generator.py lines 77–103: logo (when `assets/logo.png` exists
and embeds; an embedding failure is caught and only warned about), title,
summary paragraphs, and the failed-tests heading. -/
def pdfPreamble (fs : FS) (d : RunDoc) : List Flowable :=
  (match fs "assets/logo.png" with
   | none => []
   | some c => if embeds c then [.logo, .spacer 12] else []) ++
  [.para "Test Report Summary", .spacer 12,
   .para ("<b>Total tests:</b> " ++ toString (totalOf d)),
   .para ("<b>Passed:</b> " ++ toString (passedOf d)),
   .para ("<b>Failed:</b> " ++ toString (failedOf d)), .spacer 12,
   .para "Failed Tests Details", .spacer 6]

/-- report_generator.py lines 77–150: the full story, or the uncaught
exception raised while building it. -/
def buildStory (fs : FS) (d : RunDoc) : Except String (List Flowable) :=
  (collectE (storyFor fs) d.tests).map (fun segs => pdfPreamble fs d ++ segs)

/-! ## The report synthesizer entry point (`main`) -/

/-- Outcome of a completed run of `main`: the filesystem afterwards and the
diagnostic messages printed. -/
structure SynthResult where
  fs : FS
  msgs : List String

/-- report_generator.py `main` (lines 15–161).  Absent `report.json`:
return after a diagnostic, nothing written.  Unparseable `report.json`: the
`except` at lines 24–26 catches, prints an error and returns.  Otherwise the
markdown is built (an uncaught exception there aborts the process: modelled
as `Except.error`), written to `TEST_REPORT.md`, the story is built (same
remark), and the PDF is written to `TEST_REPORT.pdf`. -/
def reportMain (fs : FS) : Except String SynthResult :=
  match fs "report.json" with
  | none => .ok ⟨fs, ["report.json not found, skipping PDF generation"]⟩
  | some c =>
    match parseDoc c with
    | none => .ok ⟨fs, ["ERROR reading report.json"]⟩
    | some d =>
      match genMd d with
      | .error e => .error e
      | .ok md =>
        let fs1 := FS.set fs "TEST_REPORT.md" (.textFile md)
        match buildStory fs1 d with
        | .error e => .error e
        | .ok st =>
          .ok ⟨FS.set fs1 "TEST_REPORT.pdf" (.story st),
               ["TEST_REPORT.md generated", "TEST_REPORT.pdf generated"]⟩

/-! ## Concrete scenario inputs -/

/-- The identity of the test of Scenario A/B. -/
def scenarioId : String := "tests/test_login.py::test_bad_password"

/-- Scenario A item: the failing test holds a capturable session
(`save_screenshot` succeeds). -/
def scenarioAItem : TestItem := ⟨scenarioId, itemName scenarioId, [.webDriver true]⟩

/-- The execution-phase failure report of Scenario A/B. -/
def scenarioRep : PhaseReport := ⟨.call, true, scenarioId⟩

/-- The JSON record of the scenario test before serialization. -/
def scenarioRec : TestDict :=
  ⟨some scenarioId, some "failed", some "AssertionError: expected redirect", none, []⟩

/-- The summary of the scenario run: one test, zero passed, one failed. -/
def scenarioSummary : Summary := ⟨some 1, none, some 0, some 1⟩

/-- Scenario B item: the failing test holds a session on which
`save_screenshot` raises. -/
def scenarioBItem : TestItem := ⟨scenarioId, itemName scenarioId, [.webDriver false]⟩

/-- The Scenario B document: capture failed, so the record kept its original
(absent) `user_properties`. -/
def scenarioBDoc : RunDoc := ⟨scenarioSummary, [scenarioRec]⟩

/-! ## Derived definitions used by the proofs -/

/-- Whether one phase report triggers a capture attempt for this item:
execution phase, failed, and some fixture is a `WebDriver`. -/
def triggerB (item : TestItem) (r : PhaseReport) : Bool :=
  ((r.when == Phase.call) && r.failed) && (findWebDriver item.funcargs).isSome

/-- The lines a record contributes to the markdown body when generation is
total: one bullet for a failed record with a nodeid, nothing otherwise. -/
def mdSegment (t : TestDict) : List String :=
  if t.outcome = some "failed" then
    match t.nodeid with
    | none => []
    | some n => ["- `" ++ n ++ "`: " ++ msgOf t]
  else []

/-- The story contribution of a record when building is total. -/
def pdfSegmentD (fs : FS) (t : TestDict) : List Flowable :=
  if t.outcome = some "failed" then
    match t.nodeid with
    | none => []
    | some n => pdfSegment fs t n
  else []

/-! ## Concrete witness inputs -/

/-- Concrete item for the C3 witness. -/
def c3wItem : TestItem := ⟨"t.py::x", "x", [.webDriver true]⟩

/-- Concrete phase reports for the C3 witness: setup passed, call failed,
teardown passed. -/
def c3wReports : List PhaseReport :=
  [⟨.setup, false, "t.py::x"⟩, ⟨.call, true, "t.py::x"⟩, ⟨.teardown, false, "t.py::x"⟩]

/-- Concrete index for the C5/C10 witnesses. -/
def c5wIdx : Index := [("t.py::x", "screenshots/x.png")]

/-- Concrete record with existing `user_properties` and an extra field. -/
def c5wRec : TestDict :=
  ⟨some "t.py::x", some "failed", some "boom", some [("k", "v")], [("duration", "1")]⟩

/-- Concrete record without `user_properties` for the C10 witness. -/
def c10wRec : TestDict := ⟨some "t.py::x", some "failed", none, none, []⟩

/-- C6 counterexample input.  A parseable document whose single failed
record lacks the `nodeid` field: `t["nodeid"]` at report_generator.py line
46 raises a `KeyError`, so text-report generation is not total. -/
def c6doc : RunDoc :=
  ⟨⟨some 1, none, some 0, some 1⟩, [⟨none, some "failed", some "boom", none, []⟩]⟩

/-- Document for the C6 witness: one passed and one failed record, the
failed one without a message. -/
def c6wDoc : RunDoc :=
  ⟨⟨some 2, none, some 1, some 1⟩,
   [⟨some "t.py::a", some "passed", none, none, []⟩,
    ⟨some "t.py::b", some "failed", none, none, []⟩]⟩

/-- The empty filesystem, for the C9 witness (and as a filesystem with no
artifact files elsewhere). -/
def c9wFs : FS := fun _ => none

/-- Record for the C8 witness: a failed test referencing an artifact. -/
def c8wRec : TestDict :=
  ⟨some "t.py::x", some "failed", some "boom",
   some [("screenshot", "screenshots/x.png")], []⟩

/-- Document for the C8 witness. -/
def c8wDoc : RunDoc := ⟨⟨some 1, none, some 0, some 1⟩, [c8wRec]⟩

/-- Document for the C7 witness: an empty run. -/
def c7wDoc : RunDoc := ⟨⟨some 0, none, some 0, some 0⟩, []⟩

/-- Filesystem for the C7 witness: just the persisted document. -/
def c7wFs : FS := fun p => if p = "report.json" then some (.jsonDoc c7wDoc) else none

/-- The markdown `main` produces for `c7wDoc`. -/
def c7wMd : String := String.intercalate "\n" (mdHeader c7wDoc ++ [])

/-- The filesystem after the markdown has been written. -/
def c7wFs1 : FS := FS.set c7wFs "TEST_REPORT.md" (.textFile c7wMd)

/-- The result of running `main` on `c7wFs`. -/
def c7wRes : SynthResult :=
  ⟨FS.set c7wFs1 "TEST_REPORT.pdf" (.story (pdfPreamble c7wFs1 c7wDoc ++ [])),
   ["TEST_REPORT.md generated", "TEST_REPORT.pdf generated"]⟩

/-! ## Claims -/

/-- C1.  The claim states that the derived screenshot filenames of every two
distinct TestIdentities differ (in particular identities differing in the
separators `::`, `/`, `\`).  The code (conftest.py line 154) uses the bare
`item.name` as the filename stem — no separator is ever replaced and the
module-path part of the identity is dropped — so the two distinct identities
`tests/test_a.py::test_login` and `tests/test_b.py::test_login` derive the
same path `screenshots/test_login.png`.  This contradicts the code's own
comment "Build a filename from the test nodeid" (line 153). -/
theorem derivedPath_not_injective :
    derivedPath "tests/test_a.py::test_login" = derivedPath "tests/test_b.py::test_login"
    ∧ ("tests/test_a.py::test_login" : String) ≠ "tests/test_b.py::test_login"
    ∧ derivedPath "tests/test_a.py::test_login" = "screenshots/test_login.png" := by
  refine ⟨by decide, by decide, by decide⟩

/-- C2.  Scenario A evaluated on the code: the capture is attempted and
succeeds, but the file written is `screenshots/test_bad_password.png` (stem
= `item.name`), not the `screenshots/tests_test_login.py__test_bad_password.png`
the claim states; the serializer injects that actual path into
`user_properties`; the text report does contain the claimed line
`` - `tests/test_login.py::test_bad_password`: AssertionError: expected redirect ``. -/
theorem scenarioA_actual_behavior :
    (pytest_runtest_makereport [] scenarioAItem scenarioRep).captureAttempted = true
    ∧ (pytest_runtest_makereport [] scenarioAItem scenarioRep).writtenFile
        = some "screenshots/test_bad_password.png"
    ∧ ("screenshots/test_bad_password.png" : String)
        ≠ "screenshots/tests_test_login.py__test_bad_password.png"
    ∧ pytest_json_modifyreport (pytest_runtest_makereport [] scenarioAItem scenarioRep).index
        [scenarioRec]
        = [{ scenarioRec with
              user_properties := some [("screenshot", "screenshots/test_bad_password.png")] }]
    ∧ mdBody ⟨scenarioSummary,
        pytest_json_modifyreport (pytest_runtest_makereport [] scenarioAItem scenarioRep).index
          [scenarioRec]⟩
        = .ok ["- `tests/test_login.py::test_bad_password`: AssertionError: expected redirect"] := by
  refine ⟨by decide, by decide, by decide, by decide, by rfl⟩

/-! ## Helper lemmas about the observer -/

lemma makereport_attempted (idx : Index) (item : TestItem) (r : PhaseReport) :
    (pytest_runtest_makereport idx item r).captureAttempted = triggerB item r := by
  unfold pytest_runtest_makereport triggerB
  split
  · rename_i h
    obtain ⟨h1, h2⟩ := h
    cases hfw : findWebDriver item.funcargs with
    | none => simp [hfw, h1, h2]
    | some ok => cases ok <;> simp [hfw, h1, h2]
  · rename_i h
    by_cases hw : r.when = Phase.call
    · have hf : r.failed = false := by
        cases hff : r.failed
        · rfl
        · exact absurd ⟨hw, hff⟩ h
      simp [hw, hf]
    · simp [hw]

lemma makereport_index (idx : Index) (item : TestItem) (r : PhaseReport) :
    (pytest_runtest_makereport idx item r).index = idx ∨
    (pytest_runtest_makereport idx item r).index
      = Index.record idx r.nodeid (resolvePath item.name) := by
  unfold pytest_runtest_makereport
  split
  · cases hfw : findWebDriver item.funcargs with
    | none => left; rfl
    | some ok =>
      cases ok
      · left; simp
      · right; simp
  · left; rfl

lemma countKey_map_update (idx : Index) (k v k' : String) :
    countKey (idx.map fun p => if p.1 == k then (k, v) else p) k' = countKey idx k' := by
  unfold countKey
  rw [List.filter_map, List.length_map]
  refine congrArg List.length (List.filter_congr ?_)
  intro p _
  by_cases hp : p.1 = k
  · simp [Function.comp, hp]
  · simp [Function.comp, hp]

lemma countKey_record_le (idx : Index) (k v k' : String) :
    countKey (Index.record idx k v) k' ≤ max (countKey idx k') 1 := by
  unfold Index.record
  split
  · rw [countKey_map_update]
    exact le_max_left _ _
  · rename_i h
    by_cases hk : k = k'
    · subst hk
      have h0 : countKey idx k = 0 := by
        unfold countKey
        rw [List.length_eq_zero, List.filter_eq_nil_iff]
        intro p hp
        simp only [beq_iff_eq]
        intro hpk
        exact h (List.any_eq_true.mpr ⟨p, hp, by simp [hpk]⟩)
      unfold countKey at h0 ⊢
      rw [List.filter_append, List.length_append, List.length_eq_zero.mp h0]
      simp
    · unfold countKey
      rw [List.filter_append]
      have hnil : List.filter (fun p => p.1 == k') [(k, v)] = [] := by
        simp [hk]
      rw [hnil, List.append_nil]
      exact le_max_left _ _

lemma processTest_snd (idx : Index) (item : TestItem) (rs : List PhaseReport) :
    (processTest idx item rs).2 = (rs.filter (triggerB item)).length := by
  induction rs generalizing idx with
  | nil => rfl
  | cons r rest ih =>
    simp only [processTest, List.filter_cons]
    rw [makereport_attempted]
    by_cases h : triggerB item r = true
    · simp [h, ih, Nat.add_comm]
    · rw [Bool.not_eq_true] at h
      simp [h, ih]

lemma processTest_countKey (idx : Index) (item : TestItem) (rs : List PhaseReport)
    (k : String) :
    countKey (processTest idx item rs).1 k ≤ max (countKey idx k) 1 := by
  induction rs generalizing idx with
  | nil => exact le_max_left _ _
  | cons r rest ih =>
    simp only [processTest]
    refine le_trans (ih _) ?_
    rcases makereport_index idx item r with h | h
    · rw [h]
    · rw [h]
      exact max_le (le_trans (countKey_record_le idx r.nodeid (resolvePath item.name) k)
        (le_refl _)) (le_max_right _ _)

/-- C3.  Under the pytest guarantee that a test emits exactly one
execution-phase ("call") report, a capture attempt occurs for the test iff
its call report failed and one of its fixtures is a `WebDriver` (and then
exactly one attempt occurs); when the test passed, was skipped, or failed
only in setup/teardown (no failed call report), or it has no `WebDriver`
fixture, no attempt occurs; and processing the test adds at most one
correlation-index binding for any identity. -/
theorem capture_trigger (idx : Index) (item : TestItem) (rs : List PhaseReport)
    (hone : (rs.filter (fun r => r.when == Phase.call)).length = 1) :
    ((processTest idx item rs).2 = 1 ↔
      (rs.any fun r => (r.when == Phase.call) && r.failed) = true
        ∧ (findWebDriver item.funcargs).isSome = true)
    ∧ ((rs.any fun r => (r.when == Phase.call) && r.failed) = false
        ∨ (findWebDriver item.funcargs).isSome = false
        → (processTest idx item rs).2 = 0)
    ∧ (∀ k, countKey (processTest idx item rs).1 k ≤ max (countKey idx k) 1) := by
  have hsnd := processTest_snd idx item rs
  by_cases hsw : (findWebDriver item.funcargs).isSome = true
  · have htrig : ∀ r, triggerB item r = ((r.when == Phase.call) && r.failed) := by
      intro r
      simp [triggerB, hsw]
    have hle : (rs.filter (triggerB item)).length ≤ 1 := by
      calc (rs.filter (triggerB item)).length
          = ((rs.filter (fun r => r.when == Phase.call)).filter (fun r => r.failed)).length := by
            rw [List.filter_filter]
            exact congrArg List.length (List.filter_congr (fun r _ => by
              rw [htrig]
              cases hw : (r.when == Phase.call) <;> cases hf : r.failed <;> simp [hw, hf]))
        _ ≤ (rs.filter (fun r => r.when == Phase.call)).length := List.length_filter_le _ _
        _ = 1 := hone
    refine ⟨?_, ?_, fun k => processTest_countKey idx item rs k⟩
    · constructor
      · intro h1
        refine ⟨?_, hsw⟩
        rw [hsnd] at h1
        have : rs.filter (triggerB item) ≠ [] := by
          intro hnil
          rw [hnil] at h1
          exact absurd h1 (by simp)
        obtain ⟨r, hr⟩ := List.exists_mem_of_ne_nil _ this
        have hmem := List.mem_filter.mp hr
        exact List.any_eq_true.mpr ⟨r, hmem.1, by rw [← htrig r]; exact hmem.2⟩
      · rintro ⟨hany, -⟩
        rw [hsnd]
        obtain ⟨r, hrmem, hrp⟩ := List.any_eq_true.mp hany
        have hne : rs.filter (triggerB item) ≠ [] := by
          intro hnil
          have hmemf : r ∈ rs.filter (triggerB item) :=
            List.mem_filter.mpr ⟨hrmem, by rw [htrig r]; exact hrp⟩
          rw [hnil] at hmemf
          exact absurd hmemf (List.not_mem_nil r)
        have hpos : 0 < (rs.filter (triggerB item)).length := List.length_pos.mpr hne
        omega
    · intro h
      rcases h with hany | hsw'
      · rw [hsnd, List.length_eq_zero, List.filter_eq_nil_iff]
        intro r hr
        rw [htrig r]
        intro hcontra
        rw [List.any_eq_false] at hany
        exact hany r hr hcontra
      · rw [hsw] at hsw'
        exact absurd hsw' (by simp)
  · rw [Bool.not_eq_true] at hsw
    have htrig : ∀ r, triggerB item r = false := by
      intro r
      simp [triggerB, hsw]
    have h0 : (processTest idx item rs).2 = 0 := by
      rw [hsnd, List.length_eq_zero, List.filter_eq_nil_iff]
      intro r _
      simp [htrig r]
    refine ⟨?_, fun _ => h0, fun k => processTest_countKey idx item rs k⟩
    rw [h0]
    simp [hsw]

theorem capture_trigger_witness :
    (processTest [] c3wItem c3wReports).2 = 1
    ∧ countKey (processTest [] c3wItem c3wReports).1 "t.py::x"
        ≤ max (countKey [] "t.py::x") 1 :=
  ⟨(capture_trigger [] c3wItem c3wReports (by decide)).1.mpr ⟨by decide, by decide⟩,
   (capture_trigger [] c3wItem c3wReports (by decide)).2.2 "t.py::x"⟩

/-- C5.  The serializer maps every record of the document through
`modifyTest`; for each record it never changes any field other than
`user_properties`; when the record's nodeid has a correlation-index entry
the `["screenshot", rel]` pair is appended (after any existing pairs, with
an absent list treated as empty); when it has no entry (or no nodeid) the
record is left entirely unchanged. -/
theorem serializer_frame (idx : Index) (ts : List TestDict) :
    pytest_json_modifyreport idx ts = ts.map (modifyTest idx)
    ∧ ∀ t ∈ ts,
        ((modifyTest idx t).nodeid = t.nodeid
         ∧ (modifyTest idx t).outcome = t.outcome
         ∧ (modifyTest idx t).call_crash_message = t.call_crash_message
         ∧ (modifyTest idx t).extra = t.extra)
        ∧ (∀ n rel, t.nodeid = some n → List.lookup n idx = some rel →
            (modifyTest idx t).user_properties
              = some (t.user_properties.getD [] ++ [("screenshot", rel)]))
        ∧ (t.nodeid.bind (fun n => List.lookup n idx) = none → modifyTest idx t = t) := by
  refine ⟨rfl, fun t _ => ?_⟩
  cases hn : t.nodeid with
  | none =>
    refine ⟨?_, ?_, ?_⟩
    · simp [modifyTest, hn]
    · intro n rel hsome _
      exact absurd hsome (by simp)
    · intro _
      simp [modifyTest, hn]
  | some n =>
    cases hl : List.lookup n idx with
    | none =>
      refine ⟨?_, ?_, ?_⟩
      · simp [modifyTest, hn, hl]
      · intro n' rel hsome hlook
        have hnn : n = n' := Option.some.inj hsome
        subst hnn
        rw [hl] at hlook
        exact absurd hlook (by simp)
      · intro _
        simp [modifyTest, hn, hl]
    | some rel =>
      refine ⟨?_, ?_, ?_⟩
      · simp [modifyTest, hn, hl]
      · intro n' rel' hsome hlook
        have hnn : n = n' := Option.some.inj hsome
        subst hnn
        have hrr : rel = rel' := Option.some.inj (hl.symm.trans hlook)
        subst hrr
        simp [modifyTest, hn, hl]
      · intro hbind
        simp only [Option.some_bind] at hbind
        rw [hl] at hbind
        exact absurd hbind (by simp)

theorem serializer_frame_witness :
    (modifyTest c5wIdx c5wRec).outcome = c5wRec.outcome
    ∧ (modifyTest c5wIdx c5wRec).user_properties
        = some (c5wRec.user_properties.getD [] ++ [("screenshot", "screenshots/x.png")]) :=
  ⟨((serializer_frame c5wIdx [c5wRec]).2 c5wRec (by simp)).1.2.1,
   ((serializer_frame c5wIdx [c5wRec]).2 c5wRec (by simp)).2.1
     "t.py::x" "screenshots/x.png" rfl (by decide)⟩

/-- C10.  When the serializer attaches a screenshot to a record whose
`user_properties` is absent or `null`, it first initializes the list to `[]`
and the result is the singleton pair; when a list is already present, every
existing pair is preserved and the screenshot pair is appended after them. -/
theorem user_properties_append (idx : Index) (t : TestDict) (n rel : String)
    (hn : t.nodeid = some n) (hl : List.lookup n idx = some rel) :
    (t.user_properties = none →
      (modifyTest idx t).user_properties = some [("screenshot", rel)])
    ∧ ∀ ps, t.user_properties = some ps →
        (modifyTest idx t).user_properties = some (ps ++ [("screenshot", rel)]) := by
  constructor
  · intro hup
    simp [modifyTest, hn, hl, hup]
  · intro ps hup
    simp [modifyTest, hn, hl, hup]

theorem user_properties_append_witness :
    (modifyTest c5wIdx c10wRec).user_properties
      = some [("screenshot", "screenshots/x.png")] :=
  (user_properties_append c5wIdx c10wRec "t.py::x" "screenshots/x.png" rfl (by decide)).1 rfl

/-! ## Helper lemmas about the markdown report -/

lemma collectE_eq {α β : Type} (f : α → Except String (List β)) (g : α → List β)
    (l : List α) (h : ∀ a ∈ l, f a = .ok (g a)) :
    collectE f l = .ok ((l.map g).flatten) := by
  induction l with
  | nil => rfl
  | cons a as ih =>
    simp only [collectE]
    rw [h a (List.mem_cons_self a as), ih (fun b hb => h b (List.mem_cons_of_mem a hb))]
    simp

lemma mdLinesFor_ok (t : TestDict) (h : t.outcome = some "failed" → t.nodeid.isSome) :
    mdLinesFor t = .ok (mdSegment t) := by
  unfold mdLinesFor mdSegment
  by_cases ho : t.outcome = some "failed"
  · rw [if_pos ho, if_pos ho]
    cases hn : t.nodeid with
    | none =>
      have hs := h ho
      rw [hn] at hs
      exact absurd hs (by simp)
    | some n => rfl
  · rw [if_neg ho, if_neg ho]

lemma mdSegment_length (ts : List TestDict)
    (h : ∀ t ∈ ts, t.outcome = some "failed" → t.nodeid.isSome) :
    ((ts.map mdSegment).flatten).length
      = (ts.filter fun t => t.outcome == some "failed").length := by
  induction ts with
  | nil => rfl
  | cons t rest ih =>
    have hrest := ih (fun u hu => h u (List.mem_cons_of_mem t hu))
    simp only [List.map_cons, List.flatten_cons, List.length_append, List.filter_cons]
    by_cases ho : t.outcome = some "failed"
    · have hn := h t (List.mem_cons_self t rest) ho
      cases hnn : t.nodeid with
      | none =>
        rw [hnn] at hn
        exact absurd hn (by simp)
      | some n =>
        simp [mdSegment, ho, hnn, hrest, Nat.add_comm]
    · simp [mdSegment, ho, hrest]

theorem genMd_raises_on_missing_nodeid :
    genMd c6doc = .error "KeyError: nodeid" := rfl

/-- C6 (amended).  For every parseable document each of whose failed records
carries its identity field, text-report generation succeeds and yields the
header (with total/passed/failed counts) followed by one line per failed
record — identity plus failure message, with `<no message>` substituted for
an absent message. -/
theorem genMd_total_of_ids (d : RunDoc)
    (h : ∀ t ∈ d.tests, t.outcome = some "failed" → t.nodeid.isSome) :
    genMd d = .ok (String.intercalate "\n" (mdHeader d ++ (d.tests.map mdSegment).flatten))
    ∧ ((d.tests.map mdSegment).flatten).length
        = (d.tests.filter fun t => t.outcome == some "failed").length := by
  constructor
  · unfold genMd mdBody
    rw [collectE_eq mdLinesFor mdSegment d.tests (fun t ht => mdLinesFor_ok t (h t ht))]
    rfl
  · exact mdSegment_length d.tests h

theorem genMd_total_witness :
    genMd c6wDoc
      = .ok (String.intercalate "\n" (mdHeader c6wDoc ++ (c6wDoc.tests.map mdSegment).flatten))
    ∧ ((c6wDoc.tests.map mdSegment).flatten).length
        = (c6wDoc.tests.filter fun t => t.outcome == some "failed").length :=
  genMd_total_of_ids c6wDoc (by decide)

/-- C9.  When `report.json` is absent, or present but unparseable, `main`
returns normally (no exception), writes nothing (the filesystem is returned
unchanged, so no `TEST_REPORT.*` file appears), and prints a diagnostic
explaining why.  The caller in conftest.py runs the script with
`check=False`, so this exit is non-fatal to the test run. -/
theorem synth_skips_without_document (fs : FS)
    (h : fs "report.json" = none
      ∨ ∃ c, fs "report.json" = some c ∧ parseDoc c = none) :
    reportMain fs = .ok ⟨fs, ["report.json not found, skipping PDF generation"]⟩
    ∨ reportMain fs = .ok ⟨fs, ["ERROR reading report.json"]⟩ := by
  rcases h with h | ⟨c, hc, hp⟩
  · left
    unfold reportMain
    rw [h]
  · right
    unfold reportMain
    rw [hc]
    simp [hp]

theorem synth_skips_witness :
    reportMain c9wFs = .ok ⟨c9wFs, ["report.json not found, skipping PDF generation"]⟩
    ∨ reportMain c9wFs = .ok ⟨c9wFs, ["ERROR reading report.json"]⟩ :=
  synth_skips_without_document c9wFs (Or.inl rfl)

/-! ## Helper lemmas about the illustrated report -/

lemma storyFor_ok (fs : FS) (t : TestDict)
    (h : t.outcome = some "failed" → t.nodeid.isSome) :
    storyFor fs t = .ok (pdfSegmentD fs t) := by
  unfold storyFor pdfSegmentD
  by_cases ho : t.outcome = some "failed"
  · rw [if_pos ho, if_pos ho]
    cases hn : t.nodeid with
    | none =>
      have hs := h ho
      rw [hn] at hs
      exact absurd hs (by simp)
    | some n => rfl
  · rw [if_neg ho, if_neg ho]

lemma buildStory_ok (fs : FS) (d : RunDoc)
    (h : ∀ t ∈ d.tests, t.outcome = some "failed" → t.nodeid.isSome) :
    buildStory fs d = .ok (pdfPreamble fs d ++ (d.tests.map (pdfSegmentD fs)).flatten) := by
  unfold buildStory
  rw [collectE_eq (storyFor fs) (pdfSegmentD fs) d.tests
    (fun t ht => storyFor_ok fs t (h t ht))]
  rfl

lemma pdfSegment_decomp (fs : FS) (t : TestDict) (n : String) :
    ∃ tail, pdfSegment fs t n
      = [.para ("<b>" ++ spaceSlashes n ++ "</b>:"), .spacer 4, .para (msgOf t), .spacer 8]
        ++ tail := by
  unfold pdfSegment
  cases screenshotOf t with
  | none => exact ⟨_, rfl⟩
  | some p =>
    by_cases hp : p.isEmpty
    · simp only [hp, if_true]
      exact ⟨_, rfl⟩
    · rw [Bool.not_eq_true] at hp
      simp only [hp, Bool.false_eq_true, if_false]
      cases hfp : fs p with
      | none => exact ⟨_, rfl⟩
      | some c =>
        by_cases hc : embeds c
        · simp only [hc, if_true]
          exact ⟨_, rfl⟩
        · rw [Bool.not_eq_true] at hc
          simp only [hc, Bool.false_eq_true, if_false]
          exact ⟨_, rfl⟩

lemma collectE_storyFor_ids (fs : FS) (ts : List TestDict) (l : List Flowable)
    (h : collectE (storyFor fs) ts = .ok l) :
    ∀ t ∈ ts, t.outcome = some "failed" → t.nodeid.isSome := by
  induction ts generalizing l with
  | nil =>
    intro t ht
    exact absurd ht (List.not_mem_nil t)
  | cons a as ih =>
    intro t ht ho
    simp only [collectE] at h
    cases hsf : storyFor fs a with
    | error e =>
      rw [hsf] at h
      simp at h
    | ok bs =>
      rw [hsf] at h
      cases hrest : collectE (storyFor fs) as with
      | error e =>
        rw [hrest] at h
        simp at h
      | ok rest =>
        rcases List.mem_cons.mp ht with rfl | hmem
        · unfold storyFor at hsf
          rw [if_pos ho] at hsf
          cases hn : t.nodeid with
          | none =>
            rw [hn] at hsf
            simp at hsf
          | some n => simp
        · exact ih rest hrest t hmem ho

/-- C8.  For every document whose failed records carry their identity, the
story builds to completion; every failed record contributes its bold
identity line (rendering continues across all records); when a record's
referenced artifact is absent from the filesystem, the
"[No screenshot file found]" placeholder appears; when the artifact exists
but cannot be embedded, the embedding error is caught and replaced with the
inline error note. -/
theorem pdf_degrades_gracefully (fs : FS) (d : RunDoc)
    (h : ∀ t ∈ d.tests, t.outcome = some "failed" → t.nodeid.isSome) :
    buildStory fs d = .ok (pdfPreamble fs d ++ (d.tests.map (pdfSegmentD fs)).flatten)
    ∧ ∀ t ∈ d.tests, ∀ n, t.outcome = some "failed" → t.nodeid = some n →
        (Flowable.para ("<b>" ++ spaceSlashes n ++ "</b>:")
            ∈ pdfPreamble fs d ++ (d.tests.map (pdfSegmentD fs)).flatten
         ∧ ∀ p, screenshotOf t = some p → p.isEmpty = false →
             ((fs p = none → Flowable.para "[No screenshot file found]"
                 ∈ pdfPreamble fs d ++ (d.tests.map (pdfSegmentD fs)).flatten)
              ∧ ∀ c, fs p = some c → embeds c = false →
                  Flowable.para "[Unable to insert screenshot: embed error]"
                    ∈ pdfPreamble fs d ++ (d.tests.map (pdfSegmentD fs)).flatten)) := by
  refine ⟨buildStory_ok fs d h, ?_⟩
  intro t ht n ho hn
  have hseg : pdfSegmentD fs t = pdfSegment fs t n := by
    unfold pdfSegmentD
    rw [if_pos ho, hn]
  have hsub : ∀ x ∈ pdfSegment fs t n,
      x ∈ pdfPreamble fs d ++ (d.tests.map (pdfSegmentD fs)).flatten := by
    intro x hx
    refine List.mem_append_right _ ?_
    refine List.mem_flatten.mpr ⟨pdfSegment fs t n, ?_, hx⟩
    rw [← hseg]
    exact List.mem_map_of_mem _ ht
  constructor
  · apply hsub
    obtain ⟨tail, htail⟩ := pdfSegment_decomp fs t n
    rw [htail]
    simp
  · intro p hp hpe
    constructor
    · intro hnone
      apply hsub
      simp [pdfSegment, hp, hpe, hnone]
    · intro c hc hemb
      apply hsub
      simp [pdfSegment, hp, hpe, hc, hemb]

theorem pdf_degrades_witness :
    buildStory c9wFs c8wDoc
      = .ok (pdfPreamble c9wFs c8wDoc ++ (c8wDoc.tests.map (pdfSegmentD c9wFs)).flatten)
    ∧ Flowable.para "[No screenshot file found]"
        ∈ pdfPreamble c9wFs c8wDoc ++ (c8wDoc.tests.map (pdfSegmentD c9wFs)).flatten :=
  ⟨(pdf_degrades_gracefully c9wFs c8wDoc (by decide)).1,
   ((((pdf_degrades_gracefully c9wFs c8wDoc (by decide)).2 c8wRec (by simp [c8wDoc])
       "t.py::x" rfl rfl).2 "screenshots/x.png" rfl (by decide)).1 rfl)⟩

/-! ## Idempotence of synthesis -/

lemma FS.set_same (fs : FS) (p : String) (c : FileContent) : FS.set fs p c p = some c := by
  unfold FS.set
  rw [if_pos rfl]

lemma FS.set_other (fs : FS) (p : String) (c : FileContent) (q : String) (h : q ≠ p) :
    FS.set fs p c q = fs q := by
  unfold FS.set
  rw [if_neg h]

/-- C7.  Synthesis is deterministic and idempotent on the text report: if a
run of `main` completes on filesystem `fs` yielding result `r`, then a
second run on the resulting filesystem also completes, and the content of
`TEST_REPORT.md` afterwards is byte-identical to the content after the
first run.  (`main` reads only `report.json` and the referenced artifact
files, never its own outputs, and the markdown depends only on the parsed
document.) -/
theorem synth_idempotent (fs : FS) (r : SynthResult) (h : reportMain fs = .ok r) :
    (reportMain r.fs).map (fun r2 => r2.fs "TEST_REPORT.md")
      = .ok (r.fs "TEST_REPORT.md") := by
  cases h1 : fs "report.json" with
  | none =>
    have hrun : reportMain fs = .ok ⟨fs, ["report.json not found, skipping PDF generation"]⟩ := by
      unfold reportMain
      rw [h1]
    rw [hrun] at h
    have hfs : r.fs = fs := (congrArg SynthResult.fs (Except.ok.inj h)).symm
    rw [hfs, hrun]
    rfl
  | some c =>
    cases h2 : parseDoc c with
    | none =>
      have hrun : reportMain fs = .ok ⟨fs, ["ERROR reading report.json"]⟩ := by
        unfold reportMain
        rw [h1]
        simp [h2]
      rw [hrun] at h
      have hfs : r.fs = fs := (congrArg SynthResult.fs (Except.ok.inj h)).symm
      rw [hfs, hrun]
      rfl
    | some d =>
      cases h3 : genMd d with
      | error e =>
        have hrun : reportMain fs = .error e := by
          unfold reportMain
          rw [h1]
          simp [h2, h3]
        rw [hrun] at h
        exact Except.noConfusion h
      | ok md =>
        cases h4 : buildStory (FS.set fs "TEST_REPORT.md" (.textFile md)) d with
        | error e =>
          have hrun : reportMain fs = .error e := by
            unfold reportMain
            rw [h1]
            simp [h2, h3, h4]
          rw [hrun] at h
          exact Except.noConfusion h
        | ok st =>
          have hrun : reportMain fs
              = .ok ⟨FS.set (FS.set fs "TEST_REPORT.md" (.textFile md))
                       "TEST_REPORT.pdf" (.story st),
                     ["TEST_REPORT.md generated", "TEST_REPORT.pdf generated"]⟩ := by
            unfold reportMain
            rw [h1]
            simp [h2, h3, h4]
          rw [hrun] at h
          have hfs : r.fs = FS.set (FS.set fs "TEST_REPORT.md" (.textFile md))
              "TEST_REPORT.pdf" (.story st) :=
            (congrArg SynthResult.fs (Except.ok.inj h)).symm
          have hids : ∀ t ∈ d.tests, t.outcome = some "failed" → t.nodeid.isSome := by
            have h4' := h4
            unfold buildStory at h4'
            cases hc4 : collectE (storyFor (FS.set fs "TEST_REPORT.md" (.textFile md)))
                d.tests with
            | error e =>
              rw [hc4] at h4'
              simp [Except.map] at h4'
            | ok segs => exact collectE_storyFor_ids _ _ segs hc4
          have hrj : r.fs "report.json" = some c := by
            rw [hfs,
              FS.set_other _ _ _ _ (by decide),
              FS.set_other _ _ _ _ (by decide)]
            exact h1
          have hbs := buildStory_ok (FS.set r.fs "TEST_REPORT.md" (.textFile md)) d hids
          have hrun2 : reportMain r.fs
              = .ok ⟨FS.set (FS.set r.fs "TEST_REPORT.md" (.textFile md))
                       "TEST_REPORT.pdf"
                       (.story (pdfPreamble (FS.set r.fs "TEST_REPORT.md" (.textFile md)) d
                          ++ (d.tests.map
                               (pdfSegmentD (FS.set r.fs "TEST_REPORT.md" (.textFile md)))).flatten)),
                     ["TEST_REPORT.md generated", "TEST_REPORT.pdf generated"]⟩ := by
            unfold reportMain
            rw [hrj]
            simp [h2, h3, hbs]
          rw [hrun2]
          simp only [Except.map]
          congr 1
          rw [FS.set_other _ _ _ _ (by decide), FS.set_same]
          rw [hfs, FS.set_other _ _ _ _ (by decide), FS.set_same]

theorem synth_idempotent_witness :
    (reportMain c7wRes.fs).map (fun r2 => r2.fs "TEST_REPORT.md")
      = .ok (c7wRes.fs "TEST_REPORT.md") :=
  synth_idempotent c7wFs c7wRes (by rfl)

/-! ## Capture failure (Scenario B) -/

set_option maxRecDepth 20000 in
/-- C4 counterexample.  Scenario B evaluated on the code: the capture raises
(`save_screenshot` fails), the exception is caught and warned about, no
correlation-index entry is created — but the *text* report, while it does
show the failure message, contains the "[No screenshot captured]"
placeholder nowhere (the placeholder exists only in the illustrated PDF
report, report_generator.py line 149).  So "the resulting reports show the
failure message together with the placeholder" is false of the text
report. -/
theorem capture_failure_counterexample :
    (pytest_runtest_makereport [] scenarioBItem scenarioRep).captureAttempted = true
    ∧ (pytest_runtest_makereport [] scenarioBItem scenarioRep).warned = true
    ∧ (pytest_runtest_makereport [] scenarioBItem scenarioRep).index = []
    ∧ (genMd scenarioBDoc).toOption.isSome = true
    ∧ ("AssertionError: expected redirect".toList <:+: (mdTextOf scenarioBDoc).toList)
    ∧ ¬ ("[No screenshot captured]".toList <:+: (mdTextOf scenarioBDoc).toList) := by
  refine ⟨by decide, by decide, by decide, by decide, by decide, by decide⟩

/-- C4 (amended).  When the capture operation raises, the exception is
caught and reported (warning printed), no correlation-index entry is added
and no file is written; the record is then left unchanged by the
serializer; the *text* report shows the test's failure line (without any
placeholder), and the *illustrated* report shows the failure message
together with the "[No screenshot captured]" placeholder, while synthesis
completes. -/
theorem capture_failure_handled (idx : Index) (item : TestItem) (rep : PhaseReport)
    (hwd : findWebDriver item.funcargs = some false)
    (hwhen : rep.when = Phase.call) (hfail : rep.failed = true)
    (d : RunDoc) (fs : FS) (t : TestDict) (n : String)
    (ht : t ∈ d.tests)
    (hids : ∀ u ∈ d.tests, u.outcome = some "failed" → u.nodeid.isSome)
    (hnode : t.nodeid = some n) (hout : t.outcome = some "failed")
    (hshot : screenshotOf t = none)
    (hlook : List.lookup n idx = none) :
    (pytest_runtest_makereport idx item rep).captureAttempted = true
    ∧ (pytest_runtest_makereport idx item rep).warned = true
    ∧ (pytest_runtest_makereport idx item rep).index = idx
    ∧ (pytest_runtest_makereport idx item rep).writtenFile = none
    ∧ modifyTest idx t = t
    ∧ ("- `" ++ n ++ "`: " ++ msgOf t) ∈ (d.tests.map mdSegment).flatten
    ∧ genMd d = .ok (String.intercalate "\n" (mdHeader d ++ (d.tests.map mdSegment).flatten))
    ∧ buildStory fs d = .ok (pdfPreamble fs d ++ (d.tests.map (pdfSegmentD fs)).flatten)
    ∧ Flowable.para (msgOf t) ∈ pdfPreamble fs d ++ (d.tests.map (pdfSegmentD fs)).flatten
    ∧ Flowable.para "[No screenshot captured]"
        ∈ pdfPreamble fs d ++ (d.tests.map (pdfSegmentD fs)).flatten := by
  have hseg : pdfSegmentD fs t = pdfSegment fs t n := by
    unfold pdfSegmentD
    rw [if_pos hout, hnode]
  have hsub : ∀ x ∈ pdfSegment fs t n,
      x ∈ pdfPreamble fs d ++ (d.tests.map (pdfSegmentD fs)).flatten := by
    intro x hx
    refine List.mem_append_right _ ?_
    refine List.mem_flatten.mpr ⟨pdfSegment fs t n, ?_, hx⟩
    rw [← hseg]
    exact List.mem_map_of_mem _ ht
  refine ⟨?_, ?_, ?_, ?_, ?_, ?_, ?_, ?_, ?_, ?_⟩
  · simp [pytest_runtest_makereport, hwhen, hfail, hwd]
  · simp [pytest_runtest_makereport, hwhen, hfail, hwd]
  · simp [pytest_runtest_makereport, hwhen, hfail, hwd]
  · simp [pytest_runtest_makereport, hwhen, hfail, hwd]
  · simp [modifyTest, hnode, hlook]
  · refine List.mem_flatten.mpr ⟨mdSegment t, List.mem_map_of_mem _ ht, ?_⟩
    simp [mdSegment, hout, hnode]
  · unfold genMd mdBody
    rw [collectE_eq mdLinesFor mdSegment d.tests (fun u hu => mdLinesFor_ok u (hids u hu))]
    rfl
  · exact buildStory_ok fs d hids
  · apply hsub
    simp [pdfSegment, hshot]
  · apply hsub
    simp [pdfSegment, hshot]

theorem capture_failure_handled_witness :
    (pytest_runtest_makereport [] scenarioBItem scenarioRep).warned = true
    ∧ modifyTest [] scenarioRec = scenarioRec
    ∧ Flowable.para "[No screenshot captured]"
        ∈ pdfPreamble c9wFs scenarioBDoc
          ++ (scenarioBDoc.tests.map (pdfSegmentD c9wFs)).flatten :=
  ⟨(capture_failure_handled [] scenarioBItem scenarioRep rfl rfl rfl scenarioBDoc c9wFs
      scenarioRec scenarioId (by simp [scenarioBDoc]) (by decide) rfl rfl rfl rfl).2.1,
   (capture_failure_handled [] scenarioBItem scenarioRep rfl rfl rfl scenarioBDoc c9wFs
      scenarioRec scenarioId (by simp [scenarioBDoc]) (by decide) rfl rfl rfl rfl).2.2.2.2.1,
   (capture_failure_handled [] scenarioBItem scenarioRep rfl rfl rfl scenarioBDoc c9wFs
      scenarioRec scenarioId (by simp [scenarioBDoc]) (by decide) rfl rfl rfl rfl).2.2.2.2.2.2.2.2.2⟩

end TestCI
